import Mathlib

/-!
Verification of the inventory-threshold computation (`process_csv` in
`src/app.py`) against its natural-language specification.

Modelling conventions (shallow embedding of the pandas pipeline):

* A CSV row becomes a `FulfillmentEvent`.  SKU identifiers are modelled as
  `Nat` (pandas sorts SKU strings lexicographically; any order-preserving
  injection into `Nat` is faithful for grouping, pivoting and sorting).
* `order_date` is the event timestamp, modelled as seconds since the epoch
  (`Nat`); the `day` derived column of the source is `order_date / 86400`
  (`pd.to_datetime(...).dt.date` truncation) and the week bucket of
  `to_period('W')` (weeks ending Sunday) is `(day + 3) / 7`, since day 0
  (1970-01-01) is a Thursday.  Any 7-day bucketing constant on weeks is
  order-isomorphic to the week labels the source produces.
* Quantities are modelled as `Rat` (pandas numeric columns; the source
  compares them with exact `!=`, which `Rat` equality mirrors).
* `state` is `Option String`: `none` models a row whose DataFrame has no
  `state` column, making `row.get('state', '')` return the empty string.
* `df.groupby(k)` iterates groups in ascending key order (pandas
  `sort=True` default), each group listing rows in original order: modelled
  by `sortedKeys` over the key column plus `List.filter`.
* `day_df.sort_values('order_date')` is modelled as a stable sort
  (`List.insertionSort` by timestamp).  numpy's argsort falls back to a
  stable insertion sort on the small per-day partitions; stability in
  general is not promised by the pandas API, which is recorded where it
  matters.
* `pivot` leaves a missing (sku, week) combination as NaN: modelled with
  `Option Rat` cells, `none` for NaN.  `mean(axis=1)` skips NaN (pandas
  `skipna=True` default): modelled by averaging `List.filterMap id`.
* `sort_values('Average', ascending=False)` reverses the rows, argsorts
  ascending, and reverses the index again (pandas `nargsort`).  The model
  uses a descending insertion sort as a deterministic stand-in; the pandas
  default `kind='quicksort'` does not promise any particular order among
  equal `Average` values, so no theorem below asserts the model's tie
  order, except at two-row counterexample inputs, where numpy's argsort is
  an insertion sort and the double reversal preserves the input order
  exactly.
* `st.error(...)` followed by `return <empty frame>` is `Outcome.errorEmpty`;
  an uncaught Python exception (e.g. `KeyError` from a missing column) is
  `Outcome.raised`.  `process_csv` returns the final state of the caller's
  DataFrame together with the outcome, because the source mutates its
  argument in place (`df['order_date'] = ...`, `df['day'] = ...`).
-/

/-- One fulfillment event, i.e. one CSV row of the input DataFrame. -/
structure FulfillmentEvent where
  sku : Nat
  order_date : Nat
  ordered_quantity : Rat
  found_quantity : Rat
  state : Option String
  deriving DecidableEq

/-- `timestamp` truncated to the calendar date: `df['order_date'].dt.date`. -/
def dayOf (e : FulfillmentEvent) : Nat :=
  e.order_date / 86400

/-- Week bucket of a day, `pd.to_datetime(day).dt.to_period('W')`:
weeks run Monday..Sunday, and day 0 (1970-01-01) is a Thursday. -/
def weekOf (d : Nat) : Nat :=
  (d + 3) / 7

/-- `str(row.get('state', '')).lower() == 'removed'` from line 81 of
`src/app.py`; a `none` state models an absent `state` column, for which
`row.get` returns the default `''`.  The comparison is done on character
lists (`String.toLower` is opaque to kernel reduction). -/
def isRemoved (e : FulfillmentEvent) : Bool :=
  (e.state.getD "").data.map Char.toLower == "removed".data

/-- Addition of rationals, kernel-reducible (`Rat.add` is irreducible in
the library); `qadd_eq_add` below proves it is ordinary addition. -/
def qadd (a b : Rat) : Rat :=
  mkRat (a.num * b.den + b.num * a.den) (a.den * b.den)

/-- Sum of a list of rationals via `qadd`; equals `List.sum`. -/
def qsum (l : List Rat) : Rat :=
  l.foldr qadd 0

/-- The stop condition of the daily scan, line 81 of `src/app.py`:
`found_quantity != ordered_quantity` or a removed state. -/
def failsCheck (e : FulfillmentEvent) : Bool :=
  decide (e.found_quantity ≠ e.ordered_quantity) || isRemoved e

/-- An event that lets the scan continue: fully served and not removed. -/
def fullyServed (e : FulfillmentEvent) : Bool :=
  ! failsCheck e

/-- The `for _, row in day_df.iterrows()` loop of lines 77-85: carries
`cumulative` and returns it together with `threshold_for_day`
(`none` when no `break` fired). -/
def dayLoop : List FulfillmentEvent → Rat → Rat × Option Rat
  | [], cumulative => (cumulative, none)
  | e :: rest, cumulative =>
    if failsCheck e then (cumulative, some cumulative)
    else dayLoop rest (qadd cumulative e.found_quantity)

/-- Lines 86-88 of `src/app.py`: `threshold_for_day = cumulative` when the
loop finished without a `break` (`threshold_for_day is None`). -/
def resolveThreshold (p : Rat × Option Rat) : Rat :=
  match p with
  | (cumulative, none) => cumulative
  | (_, some t) => t

/-- Lines 75-88: run the loop from `cumulative = 0`; if no failure event
occurred use the accumulated total. -/
def dayThreshold (l : List FulfillmentEvent) : Rat :=
  resolveThreshold (dayLoop l 0)

/-- Comparison used by `day_df.sort_values('order_date')`. -/
def tsLe (a b : FulfillmentEvent) : Prop :=
  a.order_date ≤ b.order_date

instance : DecidableRel tsLe :=
  fun a b => Nat.decLe a.order_date b.order_date

instance : IsTotal FulfillmentEvent tsLe :=
  ⟨fun a b => Nat.le_total a.order_date b.order_date⟩

instance : IsTrans FulfillmentEvent tsLe :=
  ⟨fun _ _ _ h h' => Nat.le_trans h h'⟩

/-- Strict timestamp order, used to compare sorted lists. -/
def tsLt (a b : FulfillmentEvent) : Prop :=
  a.order_date < b.order_date

instance : IsAntisymm FulfillmentEvent tsLt :=
  ⟨fun _ _ h h' => absurd h' (Nat.lt_asymm h)⟩

/-- The ascending list of distinct values of a key column: the order in
which `df.groupby(key)` iterates its groups (pandas sorts group keys). -/
def sortedKeys (l : List Nat) : List Nat :=
  List.insertionSort (· ≤ ·) l.dedup

/-- Group keys of `df.groupby('sku')`, line 71. -/
def skusOf (rows : List FulfillmentEvent) : List Nat :=
  sortedKeys (rows.map (·.sku))

/-- Group keys of `sku_df.groupby('day')`, line 73. -/
def daysOf (rows : List FulfillmentEvent) (s : Nat) : List Nat :=
  sortedKeys ((rows.filter (fun e => e.sku == s)).map dayOf)

/-- `day_df` after line 74: the events of one SKU and one day, sorted by
timestamp (stable sort, ties in original row order). -/
def dayEvents (rows : List FulfillmentEvent) (s d : Nat) : List FulfillmentEvent :=
  List.insertionSort tsLe (rows.filter (fun e => e.sku == s && dayOf e == d))

/-- One record of the `daily_thresholds` list built on line 89. -/
structure DailyThreshold where
  sku : Nat
  day : Nat
  threshold : Rat
  deriving DecidableEq

/-- The full `daily_thresholds` list of lines 68-89: one record per
(SKU, day) group, in the nested groupby iteration order. -/
def dailyThresholds (rows : List FulfillmentEvent) : List DailyThreshold :=
  (skusOf rows).flatMap fun s =>
    (daysOf rows s).map fun d =>
      { sku := s, day := d, threshold := dayThreshold (dayEvents rows s d) }

/-- Mean of a list of rationals: the sum divided by the length, written
with `mkRat` so that it kernel-reduces; `ratMean_eq_sum_div` below proves
it equals `l.sum / l.length`.  Every use below is on a nonempty list. -/
def ratMean (l : List Rat) : Rat :=
  mkRat (qsum l).num ((qsum l).den * l.length)

/-- The distinct week keys observed across the whole `daily_df`, in the
ascending order in which `pivot` lays out its columns. -/
def weeksOfDaily (daily : List DailyThreshold) : List Nat :=
  sortedKeys (daily.map (fun r => weekOf r.day))

/-- The distinct SKUs of `daily_df`, in the ascending order in which
`pivot` lays out its rows. -/
def skusOfDaily (daily : List DailyThreshold) : List Nat :=
  sortedKeys (daily.map (·.sku))

/-- The `(sku, week)` group of line 100. -/
def weekGroup (daily : List DailyThreshold) (s w : Nat) : List DailyThreshold :=
  daily.filter (fun r => r.sku == s && weekOf r.day == w)

/-- `groupby(['sku','week'])['threshold'].mean()` for one group. -/
def weeklyMean (daily : List DailyThreshold) (s w : Nat) : Rat :=
  ratMean ((weekGroup daily s w).map (·.threshold))

/-- One cell of the pivoted table, line 103: `none` models the NaN that
`pivot` leaves where a SKU has no record in a week. -/
def pivotCell (daily : List DailyThreshold) (s w : Nat) : Option Rat :=
  if weekGroup daily s w = [] then none else some (weeklyMean daily s w)

/-- One row of the final pivoted table. -/
structure ResultRow where
  sku : Nat
  cells : List (Option Rat)
  average : Rat
  deriving DecidableEq

/-- A pivot row for one SKU: week columns in `ws` order, plus the
`Average` column of line 107, `mean(axis=1)` skipping NaN cells. -/
def mkRow (daily : List DailyThreshold) (ws : List Nat) (s : Nat) : ResultRow :=
  { sku := s
    cells := ws.map (pivotCell daily s)
    average := ratMean ((ws.map (pivotCell daily s)).filterMap id) }

/-- Comparison of `sort_values('Average', ascending=False)`: a row comes
first when its average is at least the other's. -/
def avgGe (a b : ResultRow) : Prop :=
  b.average ≤ a.average

instance : DecidableRel avgGe :=
  fun a b => inferInstanceAs (Decidable (b.average ≤ a.average))

instance : IsTotal ResultRow avgGe :=
  ⟨fun a b => (le_total b.average a.average).imp id id⟩

instance : IsTrans ResultRow avgGe :=
  ⟨fun _ _ _ h h' => le_trans h' h⟩

/-- Lines 100-110: weekly averaging, pivot, `Average` column and the final
descending sort by `Average`.  The insertion sort is a deterministic
stand-in for `sort_values('Average', ascending=False)`: the source sorts
by `Average` descending but does not specify the order among equal
averages (numpy's default quicksort is unstable on large partitions), so
theorems below only use that the result is sorted and is a permutation of
the pivot rows — not the model's tie order. -/
def rankTable (daily : List DailyThreshold) : List ResultRow :=
  List.insertionSort avgGe ((skusOfDaily daily).map (mkRow daily (weeksOfDaily daily)))

/-- The typed core of `process_csv`: events in, ranked pivot table out. -/
def process (rows : List FulfillmentEvent) : List ResultRow :=
  rankTable (dailyThresholds rows)

/-- The caller-visible DataFrame: its column names and its typed rows. -/
structure Table where
  cols : List String
  rows : List FulfillmentEvent
  deriving DecidableEq

/-- Lines 59-65 mutate the caller's frame in place: `order_date` is
converted to datetime and a `day` column is written (appended when absent,
with values derived from `order_date`). -/
def addDay (t : Table) : Table :=
  { cols := if "day" ∈ t.cols then t.cols else t.cols ++ ["day"]
    rows := t.rows }

/-- How `process_csv` terminates, as seen by the caller. -/
inductive Outcome where
  | errorEmpty : String → Outcome
  | raised : String → Outcome
  | ok : List ResultRow → Outcome
  deriving DecidableEq

/-- Message of line 56. -/
def msgOrderDate : String :=
  "The CSV file must include an order_date column."

/-- Message of line 93. -/
def msgNoData : String :=
  "No threshold data could be computed from the CSV file."

/-- `process_csv` of `src/app.py` lines 38-112 at the DataFrame boundary:
checks only the `order_date` column (line 55), mutates the input frame
(lines 59-65), then raises `KeyError` when `groupby('sku')` (line 71) or
the per-row quantity reads (line 81, `found_quantity` evaluated first)
meet a missing column; an empty `daily_df` yields the line 93 error with
an empty frame, otherwise the ranked table is returned.  The first
component is the final state of the caller's DataFrame.

`csvOutcome` is the part after the mutation: lines 71-112 run on the
already-mutated frame `t1`. -/
def csvOutcome (t1 : Table) : Outcome :=
  if "sku" ∈ t1.cols then
    if t1.rows ≠ [] ∧ "found_quantity" ∉ t1.cols then
      Outcome.raised "KeyError: found_quantity"
    else if t1.rows ≠ [] ∧ "ordered_quantity" ∉ t1.cols then
      Outcome.raised "KeyError: ordered_quantity"
    else if dailyThresholds t1.rows = [] then
      Outcome.errorEmpty msgNoData
    else
      Outcome.ok (process t1.rows)
  else
    Outcome.raised "KeyError: sku"

/-- Lines 38-65 and the dispatch: the `order_date` check, the in-place
mutation, then the rest of the computation on the mutated frame. -/
def process_csv (t : Table) : Table × Outcome :=
  if "order_date" ∈ t.cols then (addDay t, csvOutcome (addDay t))
  else (t, Outcome.errorEmpty msgOrderDate)

/-! Spec-side definitions, written from the claims' words, to be compared
with the definitions embedded from the source above. -/

/-- Spec side of C1: the sum of `found_quantity` over the longest prefix
of events that are fully served and not removed. -/
def specDayThreshold (l : List FulfillmentEvent) : Rat :=
  ((l.takeWhile fullyServed).map (·.found_quantity)).sum

/-- Spec side of C3: the arithmetic mean of the SKU's daily thresholds
whose day falls in the given week. -/
def specWeeklyMean (daily : List DailyThreshold) (s w : Nat) : Rat :=
  ((daily.filter (fun rec => rec.sku == s && weekOf rec.day == w)).map (·.threshold)).sum /
    (((daily.filter (fun rec => rec.sku == s && weekOf rec.day == w)).length : Nat) : Rat)

/-- Spec side of C10: the daily scan with the stop condition reduced to
the quantity comparison alone. -/
def dayLoopQty : List FulfillmentEvent → Rat → Rat × Option Rat
  | [], cumulative => (cumulative, none)
  | e :: rest, cumulative =>
    if decide (e.found_quantity ≠ e.ordered_quantity) then (cumulative, some cumulative)
    else dayLoopQty rest (qadd cumulative e.found_quantity)

/-- Spec side of C10: day threshold under the quantity-only stop rule. -/
def dayThresholdQty (l : List FulfillmentEvent) : Rat :=
  resolveThreshold (dayLoopQty l 0)

/-- Spec side of C10: the daily-threshold table under the quantity-only
stop rule. -/
def dailyThresholdsQty (rows : List FulfillmentEvent) : List DailyThreshold :=
  (skusOf rows).flatMap fun s =>
    (daysOf rows s).map fun d =>
      { sku := s, day := d, threshold := dayThresholdQty (dayEvents rows s d) }

/-- The SKUs in the order in which they are first encountered in the
input (the order the spec's tie-break clause refers to). -/
def firstSeenSkus : List FulfillmentEvent → List Nat
  | [] => []
  | e :: l => e.sku :: (firstSeenSkus l).erase e.sku

/-- Executable pairwise check over all ordered pairs of a list. -/
def pairwiseB (R : α → α → Bool) : List α → Bool
  | [] => true
  | a :: l => l.all (R a) && pairwiseB R l

/-- The output rows are in descending `Average` order (claim C5, first
half). -/
def sortedByAvgDescB (out : List ResultRow) : Bool :=
  pairwiseB (fun a b => decide (b.average ≤ a.average)) out

/-- Claim C5, second half: any two output rows with equal `Average`
appear in first-seen SKU order. -/
def tieFirstSeenB (rows : List FulfillmentEvent) (out : List ResultRow) : Bool :=
  pairwiseB (fun a b =>
    !(decide (a.average = b.average)) ||
      decide ((firstSeenSkus rows).indexOf a.sku < (firstSeenSkus rows).indexOf b.sku)) out

/-- Claim C8's hypothesis: some required column is absent. -/
def missingRequired (t : Table) : Prop :=
  "sku" ∉ t.cols ∨ "order_date" ∉ t.cols ∨
    "ordered_quantity" ∉ t.cols ∨ "found_quantity" ∉ t.cols

instance (t : Table) : Decidable (missingRequired t) := by
  unfold missingRequired; infer_instance

/-- Claim C8's conclusion: the outcome is the handled, non-fatal error
path (`st.error` plus an empty result), not an exception. -/
def isHandled : Outcome → Bool
  | Outcome.errorEmpty _ => true
  | _ => false

/-! Concrete inputs used by witnesses and counterexamples. -/

/-- The spec's worked example: one SKU, one day, events
(10,10), (5,5), (3,2); the third event breaks the chain. -/
def exRows1 : List FulfillmentEvent :=
  [⟨1, 0, 10, 10, some "active"⟩, ⟨1, 100, 5, 5, some "active"⟩,
    ⟨1, 200, 3, 2, some "active"⟩]

/-- Two SKUs, one day each in different weeks: SKU 1 in week 0, SKU 2 in
week 1, so each pivot row has one missing cell. -/
def rows3 : List FulfillmentEvent :=
  [⟨1, 0, 5, 5, some "active"⟩, ⟨2, 604800, 4, 4, some "active"⟩]

/-- SKU 2 is encountered first, SKU 1 second; both end with `Average` 5. -/
def exRows5 : List FulfillmentEvent :=
  [⟨2, 0, 5, 5, some "active"⟩, ⟨1, 10, 5, 5, some "active"⟩]

/-- Two events of the same SKU with the same timestamp: a fully-served
one and a failing one. -/
def exA : List FulfillmentEvent :=
  [⟨1, 100, 5, 5, some "active"⟩, ⟨1, 100, 2, 1, some "active"⟩]

/-- `exA` with its two rows swapped. -/
def exB : List FulfillmentEvent :=
  [⟨1, 100, 2, 1, some "active"⟩, ⟨1, 100, 5, 5, some "active"⟩]

/-- Two events of one SKU with distinct timestamps. -/
def rowsW6 : List FulfillmentEvent :=
  [⟨1, 0, 5, 5, some "active"⟩, ⟨1, 100, 3, 3, some "active"⟩]

/-- `rowsW6` with its two rows swapped. -/
def rowsW6' : List FulfillmentEvent :=
  [⟨1, 100, 3, 3, some "active"⟩, ⟨1, 0, 5, 5, some "active"⟩]

/-- The first result row of `process rows3`: SKU 1 with weekly cells
`[some 5, none]` and `Average` 5. -/
def r3 : ResultRow :=
  ⟨1, [some 5, none], 5⟩

/-- A well-formed single-row table (no `day` column yet). -/
def tFull : Table :=
  ⟨["order_date", "sku", "ordered_quantity", "found_quantity"], [⟨1, 0, 5, 5, none⟩]⟩

/-- A table whose `sku` column is missing. -/
def tNoSku : Table :=
  ⟨["order_date", "ordered_quantity", "found_quantity"], [⟨1, 0, 5, 5, none⟩]⟩

/-- A table whose `found_quantity` column is missing, with one row so
the quantity read is reached. -/
def tNoFound : Table :=
  ⟨["order_date", "sku", "ordered_quantity"], [⟨1, 0, 5, 5, none⟩]⟩

/-- A table whose `ordered_quantity` column is missing (with
`found_quantity` present and one row, so the quantity comparison is
reached). -/
def tNoOrd : Table :=
  ⟨["order_date", "sku", "found_quantity"], [⟨1, 0, 5, 5, none⟩]⟩

/-- A table whose `order_date` column is missing. -/
def tNoDate : Table :=
  ⟨["sku", "ordered_quantity", "found_quantity"], [⟨1, 0, 5, 5, none⟩]⟩

/-- A schema-complete table with no rows at all. -/
def tEmpty : Table :=
  ⟨["order_date", "sku", "ordered_quantity", "found_quantity"], []⟩

/-! Bridge lemmas: the kernel-reducible arithmetic used in the embedding
is the ordinary rational arithmetic. -/

theorem qadd_eq_add (a b : Rat) : qadd a b = a + b :=
  (Rat.add_def' a b).symm

theorem qsum_eq_sum (l : List Rat) : qsum l = l.sum := by
  induction l with
  | nil => rfl
  | cons a l ih =>
    show qadd a (qsum l) = a + l.sum
    rw [qadd_eq_add, ih]

theorem mkRat_num_den_mul (x : Rat) (n : Nat) :
    mkRat x.num (x.den * n) = x / (n : Rat) := by
  rw [Rat.mkRat_eq_divInt, Rat.divInt_eq_div]
  push_cast
  rw [← div_div, Rat.num_div_den]

theorem ratMean_eq_sum_div (l : List Rat) :
    ratMean l = l.sum / (l.length : Rat) := by
  rw [ratMean, mkRat_num_den_mul, qsum_eq_sum]

/-! C1: the daily threshold is the sum of `found_quantity` over the
longest fully-served prefix of the day's sorted events. -/

theorem takeWhile_all {α : Type} {p : α → Bool} :
    ∀ {l : List α}, (∀ a ∈ l, p a = true) → l.takeWhile p = l
  | [], _ => rfl
  | a :: l, h => by
    rw [List.takeWhile_cons, if_pos (h a (List.mem_cons_self a l))]
    exact congrArg (a :: ·) (takeWhile_all fun b hb => h b (List.mem_cons_of_mem a hb))

theorem dayLoop_resolve (l : List FulfillmentEvent) : ∀ c : Rat,
    resolveThreshold (dayLoop l c) =
      c + ((l.takeWhile fullyServed).map (·.found_quantity)).sum := by
  induction l with
  | nil => intro c; simp [dayLoop, resolveThreshold]
  | cons e rest ih =>
    intro c
    by_cases h : failsCheck e = true
    · have hf : fullyServed e = false := by simp [fullyServed, h]
      simp [dayLoop, h, resolveThreshold, List.takeWhile_cons, hf]
    · have hf : fullyServed e = true := by simp [fullyServed, h]
      simp only [dayLoop, if_neg h, ih, List.takeWhile_cons, hf, if_pos,
        List.map_cons, List.sum_cons, qadd_eq_add]
      ring

theorem dayThreshold_eq_spec (l : List FulfillmentEvent) :
    dayThreshold l = specDayThreshold l := by
  rw [dayThreshold, dayLoop_resolve, zero_add, specDayThreshold]

theorem mem_dailyThresholds {rows : List FulfillmentEvent} {rec : DailyThreshold}
    (h : rec ∈ dailyThresholds rows) :
    rec.threshold = dayThreshold (dayEvents rows rec.sku rec.day) := by
  simp only [dailyThresholds, List.mem_flatMap, List.mem_map] at h
  obtain ⟨s, _, d, _, rfl⟩ := h
  rfl

/-- C1: for every SKU and calendar day of the input, the computed daily
threshold is the sum of `found_quantity` over the longest prefix of the
day's timestamp-sorted events in which every event is fully served
(`found_quantity = ordered_quantity`) and not case-insensitively
"removed"; trailing events after the first failure contribute nothing,
and when no event fails the threshold is the whole day's sum. -/
theorem C1_daily_threshold (rows : List FulfillmentEvent) (rec : DailyThreshold)
    (h : rec ∈ dailyThresholds rows) :
    rec.threshold = specDayThreshold (dayEvents rows rec.sku rec.day) ∧
    ((∀ e ∈ dayEvents rows rec.sku rec.day, fullyServed e = true) →
      rec.threshold = ((dayEvents rows rec.sku rec.day).map (·.found_quantity)).sum) := by
  have h1 := mem_dailyThresholds h
  refine ⟨h1.trans (dayThreshold_eq_spec _), fun hall => ?_⟩
  rw [h1, dayThreshold_eq_spec, specDayThreshold, takeWhile_all hall]

/-- Witness for C1 at the spec's worked example: events
(10,10), (5,5), (3,2) on one day give threshold 15. -/
theorem C1_daily_threshold_witness :
    (⟨1, 0, 15⟩ : DailyThreshold) ∈ dailyThresholds exRows1 ∧
    (15 : Rat) = specDayThreshold (dayEvents exRows1 1 0) :=
  ⟨by decide, (C1_daily_threshold exRows1 ⟨1, 0, 15⟩ (by decide)).1⟩

/-! C3 and C4: the pivoted table and its `Average` column. -/

theorem mem_process {rows : List FulfillmentEvent} {r : ResultRow}
    (h : r ∈ process rows) :
    ∃ s ∈ skusOfDaily (dailyThresholds rows),
      r = mkRow (dailyThresholds rows) (weeksOfDaily (dailyThresholds rows)) s := by
  simp only [process, rankTable] at h
  rw [(List.perm_insertionSort avgGe _).mem_iff, List.mem_map] at h
  obtain ⟨s, hs, rfl⟩ := h
  exact ⟨s, hs, rfl⟩

theorem weeklyMean_eq_spec (daily : List DailyThreshold) (s w : Nat) :
    weeklyMean daily s w = specWeeklyMean daily s w := by
  rw [weeklyMean, ratMean_eq_sum_div, specWeeklyMean, weekGroup, List.length_map]

theorem pivotCell_eq (daily : List DailyThreshold) (s w : Nat) :
    pivotCell daily s w =
      if daily.any (fun rec => rec.sku == s && weekOf rec.day == w) then
        some (specWeeklyMean daily s w)
      else none := by
  rw [pivotCell]
  by_cases h : weekGroup daily s w = []
  · rw [if_pos h, if_neg]
    simp only [weekGroup, List.filter_eq_nil_iff] at h
    simp only [List.any_eq_true, not_exists, not_and]
    intro rec hrec
    exact h rec hrec
  · rw [if_neg h, if_pos, weeklyMean_eq_spec]
    obtain ⟨rec, hrec⟩ := List.exists_mem_of_ne_nil _ h
    have := List.mem_filter.1 hrec
    exact List.any_eq_true.2 ⟨rec, this.1, this.2⟩

/-- C3: every output row carries one cell per week key observed anywhere
in the dataset; a cell is the arithmetic mean of that SKU's daily
thresholds in that week when the SKU has a day there, and a missing value
(`none`, never 0) otherwise. -/
theorem C3_weekly_pivot (rows : List FulfillmentEvent) (r : ResultRow)
    (h : r ∈ process rows) :
    (∀ rec ∈ dailyThresholds rows,
      weekOf rec.day ∈ weeksOfDaily (dailyThresholds rows)) ∧
    r.cells = (weeksOfDaily (dailyThresholds rows)).map (fun w =>
      if (dailyThresholds rows).any
          (fun rec => rec.sku == r.sku && weekOf rec.day == w) then
        some (specWeeklyMean (dailyThresholds rows) r.sku w)
      else none) := by
  constructor
  · intro rec hrec
    simp only [weeksOfDaily, sortedKeys, List.mem_insertionSort, List.mem_dedup,
      List.mem_map]
    exact ⟨rec, hrec, rfl⟩
  · obtain ⟨s, _, rfl⟩ := mem_process h
    simp only [mkRow]
    exact List.map_congr_left fun w _ => pivotCell_eq _ s w

/-- Witness for C3: on `rows3`, SKU 1 has a value in week 0 and a missing
cell (not zero) in week 1. -/
theorem C3_weekly_pivot_witness :
    r3 ∈ process rows3 ∧
    r3.cells = (weeksOfDaily (dailyThresholds rows3)).map (fun w =>
      if (dailyThresholds rows3).any
          (fun rec => rec.sku == r3.sku && weekOf rec.day == w) then
        some (specWeeklyMean (dailyThresholds rows3) r3.sku w)
      else none) :=
  ⟨by decide, (C3_weekly_pivot rows3 r3 (by decide)).2⟩

/-- C4: every output row's `Average` is the mean of its non-missing
weekly cells only — missing cells count neither toward the sum nor the
divisor — and at least one non-missing cell always exists. -/
theorem C4_average (rows : List FulfillmentEvent) (r : ResultRow)
    (h : r ∈ process rows) :
    r.cells.filterMap id ≠ [] ∧
    r.average = (r.cells.filterMap id).sum / ((r.cells.filterMap id).length : Rat) := by
  obtain ⟨s, hs, rfl⟩ := mem_process h
  constructor
  · have hs' : s ∈ (dailyThresholds rows).map (·.sku) := by
      simpa [skusOfDaily, sortedKeys, List.mem_dedup] using hs
    obtain ⟨rec, hrec, hsku⟩ := List.mem_map.1 hs'
    have hw : weekOf rec.day ∈ weeksOfDaily (dailyThresholds rows) := by
      simp only [weeksOfDaily, sortedKeys, List.mem_insertionSort, List.mem_dedup,
        List.mem_map]
      exact ⟨rec, hrec, rfl⟩
    have hmemg : rec ∈ weekGroup (dailyThresholds rows) s (weekOf rec.day) :=
      List.mem_filter.2 ⟨hrec, by simp [hsku]⟩
    have hcell : pivotCell (dailyThresholds rows) s (weekOf rec.day) =
        some (weeklyMean (dailyThresholds rows) s (weekOf rec.day)) := by
      rw [pivotCell, if_neg (List.ne_nil_of_mem hmemg)]
    have hv : weeklyMean (dailyThresholds rows) s (weekOf rec.day) ∈
        ((mkRow (dailyThresholds rows) (weeksOfDaily (dailyThresholds rows)) s).cells).filterMap id :=
      List.mem_filterMap.2
        ⟨some _, List.mem_map.2 ⟨weekOf rec.day, hw, hcell⟩, rfl⟩
    exact List.ne_nil_of_mem hv
  · simp only [mkRow]
    exact ratMean_eq_sum_div _

/-- Witness for C4: on `rows3`, SKU 1's `Average` is the mean of its
single non-missing weekly cell. -/
theorem C4_average_witness :
    r3.cells.filterMap id ≠ [] ∧
    r3.average = (r3.cells.filterMap id).sum / ((r3.cells.filterMap id).length : Rat) :=
  C4_average rows3 r3 (by decide)

/-! C5: the final sort is by `Average` descending, but the source's
tie-break is not the first-seen input order the spec asks for: the rows
entering the sort are the pivot's sorted-SKU rows, and the source leaves
the order among equal averages unspecified. -/

theorem sortedKeys_sorted (l : List Nat) :
    List.Sorted (· ≤ ·) (sortedKeys l) :=
  List.sorted_insertionSort _ _

/-- C5 counterexample: on `exRows5` SKU 2 is first-seen but both SKUs tie
at `Average` 5 and the output lists SKU 1 first (a two-row tie, where the
source's argsort is an insertion sort and the model is exact), so the
claimed first-seen tie-break is violated while the descending order
holds. -/
theorem C5_counterexample :
    sortedByAvgDescB (process exRows5) = true ∧
    tieFirstSeenB exRows5 (process exRows5) = false ∧
    firstSeenSkus exRows5 = [2, 1] ∧
    (process exRows5).map ResultRow.sku = [1, 2] := by
  refine ⟨by decide, by decide, by decide, by decide⟩

/-- C5 as amended: the result rows are ordered by `Average` descending
and are exactly the pivot's per-SKU rows up to permutation; the order
among rows with equal `Average` is not guaranteed by the source (the
default sort kind is not stable) and in particular is not the first-seen
input order, as the counterexample shows. -/
theorem C5_sort_order (rows : List FulfillmentEvent) :
    List.Sorted avgGe (process rows) ∧
    (process rows).Perm ((skusOfDaily (dailyThresholds rows)).map
      (mkRow (dailyThresholds rows) (weeksOfDaily (dailyThresholds rows)))) :=
  ⟨List.sorted_insertionSort avgGe _, List.perm_insertionSort avgGe _⟩

/-! C6: the output is not invariant under permutation of the input rows
(equal-timestamp events of one SKU and day can swap and change the
threshold); it is invariant when timestamps are distinct per SKU. -/

theorem sortedKeys_eq_of_perm {l₁ l₂ : List Nat} (h : l₁.Perm l₂) :
    sortedKeys l₁ = sortedKeys l₂ :=
  List.eq_of_perm_of_sorted
    ((List.perm_insertionSort _ _).trans
      (h.dedup.trans (List.perm_insertionSort _ _).symm))
    (sortedKeys_sorted l₁) (sortedKeys_sorted l₂)

theorem dayEvents_eq_of_perm {r1 r2 : List FulfillmentEvent} (hp : r1.Perm r2)
    (hd : r1.Pairwise (fun a b => a.sku = b.sku → a.order_date ≠ b.order_date))
    (s d : Nat) : dayEvents r1 s d = dayEvents r2 s d := by
  have hf : (r1.filter (fun e => e.sku == s && dayOf e == d)).Perm
      (r2.filter (fun e => e.sku == s && dayOf e == d)) := hp.filter _
  have hdf : (r1.filter (fun e => e.sku == s && dayOf e == d)).Pairwise
      (fun a b => a.order_date ≠ b.order_date) := by
    refine List.Pairwise.imp_of_mem ?_
      (List.Pairwise.sublist (List.filter_sublist r1) hd)
    intro a b ha hb hab
    simp only [List.mem_filter, Bool.and_eq_true, beq_iff_eq] at ha hb
    exact hab (ha.2.1.trans hb.2.1.symm)
  have hsymm : ∀ {x y : FulfillmentEvent},
      x.order_date ≠ y.order_date → y.order_date ≠ x.order_date :=
    fun h => h.symm
  have hlt1 : (dayEvents r1 s d).Pairwise tsLt :=
    ((List.sorted_insertionSort tsLe _).and
      (((List.perm_insertionSort tsLe _).pairwise_iff hsymm).2 hdf)).imp
      (fun h => lt_of_le_of_ne h.1 h.2)
  have hdf2 : (r2.filter (fun e => e.sku == s && dayOf e == d)).Pairwise
      (fun a b => a.order_date ≠ b.order_date) :=
    (hf.pairwise_iff hsymm).1 hdf
  have hlt2 : (dayEvents r2 s d).Pairwise tsLt :=
    ((List.sorted_insertionSort tsLe _).and
      (((List.perm_insertionSort tsLe _).pairwise_iff hsymm).2 hdf2)).imp
      (fun h => lt_of_le_of_ne h.1 h.2)
  exact List.eq_of_perm_of_sorted
    ((List.perm_insertionSort tsLe _).trans
      (hf.trans (List.perm_insertionSort tsLe _).symm))
    hlt1 hlt2

theorem flatMap_congr {α β : Type} {l : List α} {f g : α → List β}
    (h : ∀ a ∈ l, f a = g a) : l.flatMap f = l.flatMap g := by
  induction l with
  | nil => rfl
  | cons a l ih =>
    rw [List.flatMap_cons, List.flatMap_cons, h a (List.mem_cons_self a l),
      ih (fun b hb => h b (List.mem_cons_of_mem a hb))]

theorem dailyThresholds_eq_of_perm {r1 r2 : List FulfillmentEvent}
    (hp : r1.Perm r2)
    (hd : r1.Pairwise (fun a b => a.sku = b.sku → a.order_date ≠ b.order_date)) :
    dailyThresholds r1 = dailyThresholds r2 := by
  rw [dailyThresholds, dailyThresholds,
    show skusOf r1 = skusOf r2 from sortedKeys_eq_of_perm (hp.map _)]
  refine flatMap_congr (fun s _ => ?_)
  rw [show daysOf r1 s = daysOf r2 s from
    sortedKeys_eq_of_perm ((hp.filter _).map _)]
  refine List.map_congr_left (fun d _ => ?_)
  rw [dayEvents_eq_of_perm hp hd s d]

/-- C6 counterexample: two same-timestamp events of one SKU swap under a
permutation of the input rows and the fully-served one is scanned first
in one order but after the failing one in the other, so the two runs
rank different thresholds. -/
theorem C6_counterexample : exA.Perm exB ∧ process exA ≠ process exB :=
  ⟨by decide, by decide⟩

/-- C6 as amended: the computation is invariant under permutations of the
input rows provided no two events of the same SKU share a timestamp (on
the original claim's full generality the counterexample above fails). -/
theorem C6_perm_invariant (r1 r2 : List FulfillmentEvent) (hp : r1.Perm r2)
    (hd : r1.Pairwise (fun a b => a.sku = b.sku → a.order_date ≠ b.order_date)) :
    process r1 = process r2 := by
  rw [process, process, dailyThresholds_eq_of_perm hp hd]

/-- Witness for C6: the two orders of `rowsW6` (distinct timestamps)
produce identical results. -/
theorem C6_perm_invariant_witness : process rowsW6 = process rowsW6' :=
  C6_perm_invariant rowsW6 rowsW6' (by decide) (by decide)

/-! C7: the computation is not a pure function of its input — it mutates
the caller's DataFrame (converts `order_date` in place and writes a `day`
column) before doing anything else. -/

theorem mem_addDay_cols (t : Table) {c : String} (hc : c ≠ "day") :
    c ∈ (addDay t).cols ↔ c ∈ t.cols := by
  show c ∈ (if "day" ∈ t.cols then t.cols else t.cols ++ ["day"]) ↔ c ∈ t.cols
  split
  · exact Iff.rfl
  · simp [List.mem_append, hc]

/-- C7 counterexample: on a well-formed table without a `day` column the
computation hands back a mutated table (a `day` column has been added), so
the input is not left unchanged. -/
theorem C7_counterexample : (process_csv tFull).1 ≠ tFull := by decide

/-- C7 as amended: `process_csv` mutates its argument, but only by the
line 59-65 column writes — when `order_date` is present the returned
frame is `addDay t` (a `day` column appended when absent) while the event
rows and their fields are untouched; when `order_date` is absent the
frame is returned untouched. -/
theorem C7_mutation (t : Table) :
    (process_csv t).1.rows = t.rows ∧
    ("order_date" ∉ t.cols → (process_csv t).1 = t) ∧
    ("order_date" ∈ t.cols →
      (process_csv t).1.cols =
        if "day" ∈ t.cols then t.cols else t.cols ++ ["day"]) := by
  by_cases h : "order_date" ∈ t.cols
  · rw [process_csv, if_pos h]
    exact ⟨rfl, fun h' => absurd h h', fun _ => rfl⟩
  · rw [process_csv, if_neg h]
    exact ⟨rfl, fun _ => rfl, fun h' => absurd h' h⟩

/-- Witness for C7 at `tFull`: rows survive unchanged and the column list
gains exactly a `day` column. -/
theorem C7_mutation_witness :
    (process_csv tFull).1.rows = tFull.rows ∧
    (process_csv tFull).1.cols = tFull.cols ++ ["day"] :=
  ⟨(C7_mutation tFull).1, ((C7_mutation tFull).2.2 (by decide)).trans (by decide)⟩

/-! C8: only the `order_date` column is guarded; a missing `sku`,
`found_quantity` or `ordered_quantity` column escapes as an uncaught
`KeyError` instead of the claimed descriptive, non-fatal report. -/

/-- C8 counterexample: a table missing the required `sku` column is not
handled — `groupby('sku')` raises an uncaught `KeyError` through the
core instead of the claimed non-fatal error report. -/
theorem C8_counterexample :
    missingRequired tNoSku ∧
    isHandled (process_csv tNoSku).2 = false ∧
    (process_csv tNoSku).2 = Outcome.raised "KeyError: sku" :=
  ⟨by decide, by decide, by decide⟩

/-- C8 as amended: only a missing `order_date` column produces the
descriptive non-fatal error (with the input handed back untouched and no
partial result); a missing `sku` column raises `KeyError`, and so does a
missing quantity column as soon as a row is scanned — `found_quantity`
first (it is read first on line 81), `ordered_quantity` when
`found_quantity` is present. -/
theorem C8_schema_errors (t : Table) :
    ("order_date" ∉ t.cols → process_csv t = (t, Outcome.errorEmpty msgOrderDate)) ∧
    ("order_date" ∈ t.cols → "sku" ∉ t.cols →
      (process_csv t).2 = Outcome.raised "KeyError: sku") ∧
    ("order_date" ∈ t.cols → "sku" ∈ t.cols → t.rows ≠ [] →
      "found_quantity" ∉ t.cols →
      (process_csv t).2 = Outcome.raised "KeyError: found_quantity") ∧
    ("order_date" ∈ t.cols → "sku" ∈ t.cols → t.rows ≠ [] →
      "found_quantity" ∈ t.cols → "ordered_quantity" ∉ t.cols →
      (process_csv t).2 = Outcome.raised "KeyError: ordered_quantity") := by
  refine ⟨fun h => by rw [process_csv, if_neg h], fun h h2 => ?_,
    fun h h2 h3 h4 => ?_, fun h h2 h3 h4 h5 => ?_⟩
  · rw [process_csv, if_pos h]
    show csvOutcome (addDay t) = _
    rw [csvOutcome, if_neg (fun hx => h2 ((mem_addDay_cols t (by decide)).1 hx))]
  · rw [process_csv, if_pos h]
    show csvOutcome (addDay t) = _
    rw [csvOutcome, if_pos ((mem_addDay_cols t (by decide)).2 h2), if_pos]
    exact ⟨h3, fun hx => h4 ((mem_addDay_cols t (by decide)).1 hx)⟩
  · rw [process_csv, if_pos h]
    show csvOutcome (addDay t) = _
    rw [csvOutcome, if_pos ((mem_addDay_cols t (by decide)).2 h2),
      if_neg (fun hc => hc.2 ((mem_addDay_cols t (by decide)).2 h4)), if_pos]
    exact ⟨h3, fun hx => h5 ((mem_addDay_cols t (by decide)).1 hx)⟩

/-- Witness for C8: the missing-`order_date` path reports and returns the
input unchanged, while the missing-`sku` and the two missing-quantity
paths raise. -/
theorem C8_schema_errors_witness :
    process_csv tNoDate = (tNoDate, Outcome.errorEmpty msgOrderDate) ∧
    (process_csv tNoSku).2 = Outcome.raised "KeyError: sku" ∧
    (process_csv tNoFound).2 = Outcome.raised "KeyError: found_quantity" ∧
    (process_csv tNoOrd).2 = Outcome.raised "KeyError: ordered_quantity" :=
  ⟨(C8_schema_errors tNoDate).1 (by decide),
    (C8_schema_errors tNoSku).2.1 (by decide) (by decide),
    (C8_schema_errors tNoFound).2.2.1 (by decide) (by decide) (by decide)
      (by decide),
    (C8_schema_errors tNoOrd).2.2.2 (by decide) (by decide) (by decide)
      (by decide) (by decide)⟩

/-! C9: a dataset yielding no daily thresholds is reported as an
informative empty result, not a crash. -/

theorem dailyThresholds_ne_nil {rows : List FulfillmentEvent} (h : rows ≠ []) :
    dailyThresholds rows ≠ [] := by
  obtain ⟨e, l, rfl⟩ := List.exists_cons_of_ne_nil h
  have hmem : e ∈ e :: l := List.mem_cons_self e l
  have hs : e.sku ∈ skusOf (e :: l) := by
    simp only [skusOf, sortedKeys, List.mem_insertionSort, List.mem_dedup, List.mem_map]
    exact ⟨e, hmem, rfl⟩
  have hd : dayOf e ∈ daysOf (e :: l) e.sku := by
    simp only [daysOf, sortedKeys, List.mem_insertionSort, List.mem_dedup, List.mem_map,
      List.mem_filter]
    exact ⟨e, ⟨hmem, by simp⟩, rfl⟩
  have : (⟨e.sku, dayOf e, dayThreshold (dayEvents (e :: l) e.sku (dayOf e))⟩ :
      DailyThreshold) ∈ dailyThresholds (e :: l) := by
    rw [dailyThresholds]
    exact List.mem_flatMap.2 ⟨e.sku, hs, List.mem_map.2 ⟨dayOf e, hd, rfl⟩⟩
  exact List.ne_nil_of_mem this

/-- C9: on a dataset with the schema columns present that yields no daily
thresholds (equivalently, no rows — every row contributes to some
(SKU, day) record), the computation returns an empty table together with
the informative line 93 message, and does not raise. -/
theorem C9_empty_dataset (t : Table) (h1 : "order_date" ∈ t.cols)
    (h2 : "sku" ∈ t.cols) (h3 : dailyThresholds t.rows = []) :
    process_csv t = (addDay t, Outcome.errorEmpty msgNoData) := by
  have hrows : t.rows = [] := by
    by_contra hne
    exact dailyThresholds_ne_nil hne h3
  rw [process_csv, if_pos h1]
  refine congrArg (Prod.mk (addDay t)) ?_
  rw [csvOutcome, if_pos ((mem_addDay_cols t (by decide)).2 h2),
    if_neg (fun hc => hc.1 hrows), if_neg (fun hc => hc.1 hrows),
    if_pos (show dailyThresholds (addDay t).rows = [] from h3)]

/-- Witness for C9 at the empty table. -/
theorem C9_empty_dataset_witness :
    process_csv tEmpty = (addDay tEmpty, Outcome.errorEmpty msgNoData) :=
  C9_empty_dataset tEmpty (by decide) (by decide) (by decide)

/-! C10: with no `state` field anywhere, nothing fails and the stop
condition degenerates to the quantity comparison. -/

theorem isRemoved_none {e : FulfillmentEvent} (h : e.state = none) :
    isRemoved e = false := by
  rw [isRemoved, h]
  rfl

theorem mem_of_mem_dayEvents {rows : List FulfillmentEvent} {s d : Nat}
    {e : FulfillmentEvent} (h : e ∈ dayEvents rows s d) : e ∈ rows := by
  rw [dayEvents, List.mem_insertionSort] at h
  exact (List.mem_filter.1 h).1

theorem dayLoop_stateless {l : List FulfillmentEvent}
    (h : ∀ e ∈ l, e.state = none) : ∀ c : Rat, dayLoop l c = dayLoopQty l c := by
  induction l with
  | nil => intro c; rfl
  | cons e rest ih =>
    intro c
    have hrm : isRemoved e = false := isRemoved_none (h e (List.mem_cons_self e rest))
    simp only [dayLoop, dayLoopQty, failsCheck, hrm, Bool.or_false]
    split
    · rfl
    · exact ih (fun x hx => h x (List.mem_cons_of_mem e hx)) _

theorem dayThreshold_stateless {l : List FulfillmentEvent}
    (h : ∀ e ∈ l, e.state = none) : dayThreshold l = dayThresholdQty l := by
  rw [dayThreshold, dayThresholdQty, dayLoop_stateless h]

theorem dailyThresholds_stateless {rows : List FulfillmentEvent}
    (h : ∀ e ∈ rows, e.state = none) :
    dailyThresholds rows = dailyThresholdsQty rows := by
  rw [dailyThresholds, dailyThresholdsQty]
  refine flatMap_congr (fun s _ => ?_)
  refine List.map_congr_left (fun d _ => ?_)
  rw [dayThreshold_stateless (fun e he => h e (mem_of_mem_dayEvents he))]

/-- C10: when the dataset has no `state` field at all (every row's state
is the `row.get` default), nothing raises — assuming the four required
columns are present — every event counts as not removed, and the daily
thresholds coincide with those of the quantity-only stop rule. -/
theorem C10_no_state (t : Table) (h1 : "order_date" ∈ t.cols)
    (h2 : "sku" ∈ t.cols) (h3 : "found_quantity" ∈ t.cols)
    (h4 : "ordered_quantity" ∈ t.cols)
    (hst : ∀ e ∈ t.rows, e.state = none) :
    (∀ e ∈ t.rows, isRemoved e = false) ∧
    dailyThresholds t.rows = dailyThresholdsQty t.rows ∧
    (∀ m, (process_csv t).2 ≠ Outcome.raised m) := by
  refine ⟨fun e he => isRemoved_none (hst e he), dailyThresholds_stateless hst, ?_⟩
  intro m
  rw [process_csv, if_pos h1]
  show csvOutcome (addDay t) ≠ _
  rw [csvOutcome, if_pos ((mem_addDay_cols t (by decide)).2 h2),
    if_neg (fun hc => hc.2 ((mem_addDay_cols t (by decide)).2 h3)),
    if_neg (fun hc => hc.2 ((mem_addDay_cols t (by decide)).2 h4))]
  split
  · exact fun hc => Outcome.noConfusion hc
  · exact fun hc => Outcome.noConfusion hc

/-- Witness for C10 at `tFull`, whose single row has no state value. -/
theorem C10_no_state_witness :
    dailyThresholds tFull.rows = dailyThresholdsQty tFull.rows :=
  (C10_no_state tFull (by decide) (by decide) (by decide) (by decide)
    (by decide)).2.1
